import Mathlib

/-!
Shallow embedding of `trashcli/list.py` (the `trash-list` command core):
trash-directory selection (`TrashDirsSelector`), record listing and printing
(`ListCmd.list_trash` / `ListCmd._print_trashinfo`), attribute extraction
(`DeletionDateExtractor` / `SizeExtractor`), line formatting (`format_line`,
`format_line2`) and the output sink (`ListCmdOutput`).

Collaborators that live in other modules of the repository (`fs.py`,
`trash.py`, `fstab.py`) are parameters of the embedding, bundled in `Env`:
the claims quantify over their behaviour.  Where a collaborator's failure
mode matters it is modelled from the spec (see the doc comments).
-/

set_option autoImplicit false

namespace TrashList

/-- The scan-event tags of `trash.py` (`trash_dir_found`,
`trash_dir_skipped_because_parent_not_sticky`,
`trash_dir_skipped_because_parent_is_symlink`), together with the argument
tuples they are paired with in the event stream consumed by
`ListCmd.list_trash`: a found trash dir carries `(path, volume)`, a skipped
one carries `(path,)`. -/
inductive ScanEvent where
  | trash_dir_found (path : String) (volume : String)
  | trash_dir_skipped_because_parent_not_sticky (path : String)
  | trash_dir_skipped_because_parent_is_symlink (path : String)
  deriving DecidableEq

/-- The collaborators of `list.py` that live in other modules of the
repository, as oracles the embedding is parameterised by:

* `contents_of` — `FileSystemReader.contents_of` (`fs.py`); per the spec it
  "fails with an I/O error kind on failure"; an `error` carries `str(e)`.
* `parse_path` — `trash.parse_path`; `error` is a `ParseError`.
* `file_size` — Modelled from the spec: `fs.file_size` is not under `src/`;
  §6 gives it as "file-size lookup (`path -> integer | failure`)", so it
  either returns the byte length or fails with an I/O error the same way the
  content reader does (in the source it is `os.path.getsize`, which raises
  `OSError` when the backup copy is missing).
* `path_of_backup_copy` — `trash.path_of_backup_copy`, a pure path
  derivation (fixed naming convention).
* `maybe_parse_deletion_date` — `trash.maybe_parse_deletion_date`,
  best-effort, never fails.
* `list_trashinfo` — `TrashDirReader.list_trashinfo`, the lazy sequence of
  trashinfo paths inside one trash directory (empty on unreadable dirs,
  never failing). -/
structure Env where
  contents_of : String → Except String String
  parse_path : String → Except Unit String
  file_size : String → Except String Nat
  path_of_backup_copy : String → String
  maybe_parse_deletion_date : String → String
  list_trashinfo : String → List String

/-- `os.path.join(a, b)` (posixpath, two components), as used on line 94 of
`list.py`: if `b` is absolute (starts with the separator) the result is `b`
alone; otherwise `b` is appended to `a`, inserting a separator unless `a` is
empty or already ends with one. -/
def posixJoin (a b : String) : String :=
  if b.data.head? = some '/' then b
  else if a = "" ∨ a.data.getLast? = some '/' then a ++ b
  else a ++ "/" ++ b

/-- `format_line(attribute, original_location)`:
`"%s %s" % (attribute, original_location)`. -/
def format_line (attr original_location : String) : String :=
  attr ++ " " ++ original_location

/-- `format_line2(attribute, original_location, original_file)`:
`"%s %s -> %s" % (attribute, original_location, original_file)`. -/
def format_line2 (attr original_location original_file : String) : String :=
  attr ++ " " ++ original_location ++ " -> " ++ original_file

/-- The two attribute extractors selected by `ListCmd.run` from the parsed
`--size` option: `DeletionDateExtractor` and `SizeExtractor`. -/
inductive Extractor where
  | DeletionDateExtractor
  | SizeExtractor
  deriving DecidableEq

/-- `extractor.extract_attribute(trashinfo_path, contents)`.
`DeletionDateExtractor` returns `maybe_parse_deletion_date(contents)` and
never fails; `SizeExtractor` returns `str(file_size(path_of_backup_copy(
trashinfo_path)))`, so a failing size lookup propagates (there is no handler
in `SizeExtractor`). -/
def extract_attribute (env : Env) (extractor : Extractor)
    (trashinfo_path contents : String) : Except String String :=
  match extractor with
  | .DeletionDateExtractor => .ok (env.maybe_parse_deletion_date contents)
  | .SizeExtractor =>
    match env.file_size (env.path_of_backup_copy trashinfo_path) with
    | .error e => .error e
    | .ok n => .ok (toString n)

/-- `ListCmdOutput`: the two output sinks of `ListCmd`, each written
line-wise (`write(line + '\n')`), represented as the lists of lines written
so far. -/
structure ListCmdOutput where
  out : List String
  err : List String
  deriving DecidableEq

/-- `ListCmdOutput.println(line)`: writes to `self.out`. -/
def ListCmdOutput.println (o : ListCmdOutput) (line : String) : ListCmdOutput :=
  { o with out := o.out ++ [line] }

/-- `ListCmdOutput.error(line)`: writes to `self.err`. -/
def ListCmdOutput.error (o : ListCmdOutput) (line : String) : ListCmdOutput :=
  { o with err := o.err ++ [line] }

/-- `ListCmdOutput.print_read_error(error)`: `self.error(str(error))`. -/
def ListCmdOutput.print_read_error (o : ListCmdOutput) (e : String) : ListCmdOutput :=
  o.error e

/-- `ListCmdOutput.print_parse_path_error(offending_file)`. -/
def ListCmdOutput.print_parse_path_error (o : ListCmdOutput) (offending_file : String) :
    ListCmdOutput :=
  o.error ("Parse Error: " ++ offending_file ++ ": Unable to parse Path.")

/-- `ListCmdOutput.top_trashdir_skipped_because_parent_not_sticky(trashdir)`. -/
def ListCmdOutput.top_trashdir_skipped_because_parent_not_sticky
    (o : ListCmdOutput) (trashdir : String) : ListCmdOutput :=
  o.error ("TrashDir skipped because parent not sticky: " ++ trashdir)

/-- `ListCmdOutput.top_trashdir_skipped_because_parent_is_symlink(trashdir)`. -/
def ListCmdOutput.top_trashdir_skipped_because_parent_is_symlink
    (o : ListCmdOutput) (trashdir : String) : ListCmdOutput :=
  o.error ("TrashDir skipped because parent is symlink: " ++ trashdir)

/-- `ListCmd._print_trashinfo(volume, trashinfo_path, extractor, show_files)`.
Returns the updated output together with `some e` when an exception `e`
escapes the method (the only uncaught one is a failing size lookup inside
`extract_attribute`: the `try`/`except` blocks cover only `contents_of`
(`IOError`) and `parse_path` (`ParseError`)). -/
def print_trashinfo (env : Env) (output : ListCmdOutput) (volume trashinfo_path : String)
    (extractor : Extractor) (show_files : Bool) : ListCmdOutput × Option String :=
  match env.contents_of trashinfo_path with
  | .error e => (output.print_read_error e, none)
  | .ok contents =>
    match env.parse_path contents with
    | .error _ => (output.print_parse_path_error trashinfo_path, none)
    | .ok relative_location =>
      match extract_attribute env extractor trashinfo_path contents with
      | .error e => (output, some e)
      | .ok attr =>
        let original_location := posixJoin volume relative_location
        let line :=
          if show_files then
            format_line2 attr original_location
              (env.path_of_backup_copy trashinfo_path)
          else
            format_line attr original_location
        (output.println line, none)

/-- The record loop of `ListCmd.list_trash` for one found trash directory:
`for trash_info in trash_dir.list_trashinfo(path): self._print_trashinfo(...)`.
An exception escaping `_print_trashinfo` aborts the loop (and the whole
command). -/
def print_records (env : Env) (extractor : Extractor) (show_files : Bool)
    (volume : String) (output : ListCmdOutput) :
    List String → ListCmdOutput × Option String
  | [] => (output, none)
  | trash_info :: rest =>
    match print_trashinfo env output volume trash_info extractor show_files with
    | (o, some e) => (o, some e)
    | (o, none) => print_records env extractor show_files volume o rest

/-- The event loop of `ListCmd.list_trash`: dispatch on the event tag; a
found directory is read record by record, a skipped one only produces its
diagnostic line. An uncaught exception aborts the remaining events. -/
def process_events (env : Env) (extractor : Extractor) (show_files : Bool)
    (output : ListCmdOutput) : List ScanEvent → ListCmdOutput × Option String
  | [] => (output, none)
  | .trash_dir_found path volume :: rest =>
    match print_records env extractor show_files volume output (env.list_trashinfo path) with
    | (o, some e) => (o, some e)
    | (o, none) => process_events env extractor show_files o rest
  | .trash_dir_skipped_because_parent_not_sticky path :: rest =>
    process_events env extractor show_files
      (output.top_trashdir_skipped_because_parent_not_sticky path) rest
  | .trash_dir_skipped_because_parent_is_symlink path :: rest =>
    process_events env extractor show_files
      (output.top_trashdir_skipped_because_parent_is_symlink path) rest

/-- `TrashDirsSelector`. In `ListCmd.__init__` the selector is constructed
once with `current_user_dirs := trashdirs_scanner.scan_trash_dirs(environ)`
— a generator created at construction time, represented here by its list of
not-yet-consumed events — `all_users_dirs := []` (a plain list) and
`volume_of := fstab.volume_of`. -/
structure TrashDirsSelector where
  current_user_dirs : List ScanEvent
  all_users_dirs : List ScanEvent
  volume_of : String → String

/-- `TrashDirsSelector.select(all_users_flag, user_specified_dirs)`, with its
yielded events fully drained (as `ListCmd.list_trash`'s `for` loop does):
returns the drained events together with the selector state afterwards.
Iterating the `current_user_dirs` generator consumes it; iterating the
`all_users_dirs` list or synthesizing `trash_dir_found` events for the
user-specified dirs consumes nothing. -/
def TrashDirsSelector.select (s : TrashDirsSelector) (all_users_flag : Bool)
    (user_specified_dirs : List String) : List ScanEvent × TrashDirsSelector :=
  if all_users_flag then
    (s.all_users_dirs, s)
  else if user_specified_dirs.isEmpty then
    (s.current_user_dirs ++
       user_specified_dirs.map (fun d => .trash_dir_found d (s.volume_of d)),
     { s with current_user_dirs := [] })
  else
    (user_specified_dirs.map (fun d => .trash_dir_found d (s.volume_of d)), s)

/-- `ListCmd.list_trash(user_specified_trash_dirs, extractor, show_files)`:
select the trash dirs (always with `all_users_flag = False`), then process
the event stream. Returns the output, the uncaught exception if any, and the
selector state after the call. -/
def list_trash (env : Env) (s : TrashDirsSelector) (output : ListCmdOutput)
    (user_specified_trash_dirs : List String) (extractor : Extractor)
    (show_files : Bool) : (ListCmdOutput × Option String) × TrashDirsSelector :=
  let r := s.select false user_specified_trash_dirs
  (process_events env extractor show_files output r.1, r.2)

/-!
## Concrete environment for instantiations

A small concrete `Env` used to instantiate the theorems below: one readable
record with an absolute original path, one with a volume-relative one, one
whose content carries no parsable path, and everything else unreadable.
-/

/-- Concrete test environment with two listed records (`infoAbs`,
`infoRel`), a third readable-but-unparsable content and unreadable
everything else. -/
def wEnv : Env where
  contents_of := fun p =>
    if p = "infoAbs" then .ok "Path=/home/user/file.txt"
    else if p = "infoRel" then .ok "Path=docs/file.txt"
    else if p = "infoNoPath" then .ok "DeletionDate=2021-01-01T10:00:00"
    else .error "unreadable"
  parse_path := fun c =>
    if c = "Path=/home/user/file.txt" then .ok "/home/user/file.txt"
    else if c = "Path=docs/file.txt" then .ok "docs/file.txt"
    else .error ()
  file_size := fun _ => .ok 42
  path_of_backup_copy := fun p => p ++ ".backup"
  maybe_parse_deletion_date := fun _ => "2021-01-01T10:00:00"
  list_trashinfo := fun _ => ["infoAbs", "infoRel"]

/-!
## Selector claims (C1, C3, C8)
-/

/-- C1 (corrected): the claim as stated is false — in
`TrashDirsSelector.select` the all-users flag is tested first, so it is not
ignored when explicit directories are supplied.  What holds: when the
all-users flag is unset and the explicit list is non-empty, the yielded
events are exactly one synthesized `trash_dir_found` per explicit directory,
paired with its resolved volume, in the order supplied, and no scanned
directory is yielded; when the all-users flag is set, the explicit
directories are ignored and the all-users directories are yielded instead. -/
theorem C1_explicit_dirs (s : TrashDirsSelector) (dirs : List String)
    (h : dirs ≠ []) :
    (s.select false dirs).1
        = dirs.map (fun d => ScanEvent.trash_dir_found d (s.volume_of d)) ∧
    (s.select true dirs).1 = s.all_users_dirs := by
  cases dirs with
  | nil => exact absurd rfl h
  | cons d ds => exact ⟨rfl, rfl⟩

/-- Counterexample to C1 as stated: with the all-users flag set and a
non-empty explicit list, `select` yields the all-users directories (here
none), not a `Found` event per explicit directory. -/
theorem C1_counterexample :
    ¬ ((TrashDirsSelector.select ⟨[], [], fun _ => "/"⟩ true ["/td"]).1
        = ["/td"].map (fun d => ScanEvent.trash_dir_found d "/")) := by
  decide

/-- Witness for `C1_explicit_dirs` at a concrete selector and a concrete
non-empty explicit list. -/
theorem C1_explicit_dirs_witness :
    (TrashDirsSelector.select
        ⟨[ScanEvent.trash_dir_found "/home/u/.Trash" "/"], [], fun _ => "/vol"⟩
        false ["/td"]).1
        = ["/td"].map (fun d => ScanEvent.trash_dir_found d "/vol") ∧
    (TrashDirsSelector.select
        ⟨[ScanEvent.trash_dir_found "/home/u/.Trash" "/"], [], fun _ => "/vol"⟩
        true ["/td"]).1 = [] :=
  C1_explicit_dirs _ _ (by decide)

/-- C3 (confirmed): with the all-users flag unset, the explicit
caller-supplied directories are emitted as `trash_dir_found` events paired
with `volume_of dir`, in exactly the order supplied, as the final events of
the stream; when at least one explicit directory is supplied they are the
entire stream.  `select` applies no SecurityGate to them: the events are
synthesized unconditionally from the list. -/
theorem C3_explicit_found (s : TrashDirsSelector) (dirs : List String) :
    dirs.map (fun d => ScanEvent.trash_dir_found d (s.volume_of d))
        <:+ (s.select false dirs).1 ∧
    (dirs ≠ [] →
      (s.select false dirs).1
        = dirs.map (fun d => ScanEvent.trash_dir_found d (s.volume_of d))) := by
  cases dirs with
  | nil => exact ⟨List.nil_suffix, fun h => absurd rfl h⟩
  | cons d ds => exact ⟨List.suffix_refl _, fun _ => rfl⟩

/-- Witness for `C3_explicit_found` at a concrete selector and a concrete
two-element explicit list. -/
theorem C3_explicit_found_witness :
    ["/td1", "/td2"].map (fun d => ScanEvent.trash_dir_found d "/v")
        <:+ (TrashDirsSelector.select ⟨[], [], fun _ => "/v"⟩
              false ["/td1", "/td2"]).1 ∧
    (TrashDirsSelector.select ⟨[], [], fun _ => "/v"⟩ false ["/td1", "/td2"]).1
        = ["/td1", "/td2"].map (fun d => ScanEvent.trash_dir_found d "/v") :=
  ⟨(C3_explicit_found ⟨[], [], fun _ => "/v"⟩ ["/td1", "/td2"]).1,
   (C3_explicit_found ⟨[], [], fun _ => "/v"⟩ ["/td1", "/td2"]).2 (by decide)⟩

/-- C8 (corrected): the claim as stated is false — `ListCmd.__init__` calls
`scan_trash_dirs` once and stores the resulting generator, and `select` with
no explicit directories consumes it, so nothing re-scans.  What holds: a
second invocation of `select` on the resulting selector state with the same
arguments (all-users flag unset, as `ListCmd.list_trash` always passes)
yields the same events as the first when the explicit list is non-empty —
that path consumes no cached state — and yields no events at all when the
explicit list is empty, the cached scan stream having been exhausted by the
first invocation. -/
theorem C8_second_invocation (s : TrashDirsSelector) (dirs : List String) :
    ((s.select false dirs).2.select false dirs).1
      = if dirs.isEmpty then [] else (s.select false dirs).1 := by
  cases dirs with
  | nil => simp [TrashDirsSelector.select]
  | cons d ds => rfl

/-- Counterexample to C8 as stated: with no explicit directories, the first
invocation drains the scan generator created at construction; the second
invocation yields nothing rather than the same events. -/
theorem C8_counterexample :
    ¬ (((TrashDirsSelector.select
            ⟨[ScanEvent.trash_dir_found "/home/u/.Trash" "/"], [], fun _ => "/"⟩
            false []).2.select false []).1
        = (TrashDirsSelector.select
            ⟨[ScanEvent.trash_dir_found "/home/u/.Trash" "/"], [], fun _ => "/"⟩
            false []).1) := by
  decide

/-!
## Path resolution claim (C10)
-/

/-- C10 (confirmed): when the parsed original-path field is absolute (its
first character is the separator), `os.path.join` discards the first
component, so the computed original location is the parsed path unchanged —
and consequently `ListCmd._print_trashinfo` behaves identically whatever
volume the record's trash directory resolved to.  The volume prefix thus
only affects volume-relative parsed paths. -/
theorem C10_absolute_path (env : Env) (output : ListCmdOutput)
    (volume volume' t relative_location : String) (ex : Extractor) (sf : Bool)
    (habs : relative_location.data.head? = some '/') :
    posixJoin volume relative_location = relative_location ∧
    (∀ c, env.contents_of t = .ok c →
      env.parse_path c = .ok relative_location →
      print_trashinfo env output volume t ex sf
        = print_trashinfo env output volume' t ex sf) := by
  refine ⟨by simp [posixJoin, habs], fun c h1 h2 => ?_⟩
  simp [print_trashinfo, h1, h2, posixJoin, habs]

/-- Witness for `C10_absolute_path`: the absolute parsed path of `infoAbs`
is printed unchanged, whichever volume (`/vol` or `/mnt/disk`) the record is
resolved against. -/
theorem C10_absolute_path_witness :
    posixJoin "/vol" "/home/user/file.txt" = "/home/user/file.txt" ∧
    (∀ c, wEnv.contents_of "infoAbs" = .ok c →
      wEnv.parse_path c = .ok "/home/user/file.txt" →
      print_trashinfo wEnv ⟨[], []⟩ "/vol" "infoAbs" .DeletionDateExtractor false
        = print_trashinfo wEnv ⟨[], []⟩ "/mnt/disk" "infoAbs"
            .DeletionDateExtractor false) :=
  C10_absolute_path wEnv ⟨[], []⟩ "/vol" "/mnt/disk" "infoAbs"
    "/home/user/file.txt" .DeletionDateExtractor false (by decide)

/-!
## Factoring lemmas

The printing routines only append lines to the two streams; their additions
and outcomes do not depend on the output already written.
-/

/-- Helper: on a successfully read, parsed and extracted record,
`_print_trashinfo` prints exactly the formatted line. -/
theorem print_trashinfo_success (env : Env) (output : ListCmdOutput)
    (volume trashinfo_path contents relative_location attr : String)
    (ex : Extractor) (sf : Bool)
    (hread : env.contents_of trashinfo_path = .ok contents)
    (hparse : env.parse_path contents = .ok relative_location)
    (hattr : extract_attribute env ex trashinfo_path contents = .ok attr) :
    print_trashinfo env output volume trashinfo_path ex sf
      = (output.println
          (if sf then
            format_line2 attr (posixJoin volume relative_location)
              (env.path_of_backup_copy trashinfo_path)
          else format_line attr (posixJoin volume relative_location)), none) := by
  simp [print_trashinfo, hread, hparse, hattr]

/-- Helper: `_print_trashinfo` factors over the already-written output. -/
theorem print_trashinfo_factor (env : Env) (output : ListCmdOutput)
    (vol t : String) (ex : Extractor) (sf : Bool) :
    print_trashinfo env output vol t ex sf
      = (⟨output.out ++ (print_trashinfo env ⟨[], []⟩ vol t ex sf).1.out,
          output.err ++ (print_trashinfo env ⟨[], []⟩ vol t ex sf).1.err⟩,
         (print_trashinfo env ⟨[], []⟩ vol t ex sf).2) := by
  unfold print_trashinfo
  cases hc : env.contents_of t with
  | error e =>
    simp [hc, ListCmdOutput.print_read_error, ListCmdOutput.error]
  | ok c =>
    cases hp : env.parse_path c with
    | error u =>
      simp [hc, hp, ListCmdOutput.print_parse_path_error, ListCmdOutput.error]
    | ok p =>
      cases ha : extract_attribute env ex t c with
      | error e => simp [hc, hp, ha]
      | ok a => simp [hc, hp, ha, ListCmdOutput.println]

/-- Helper: the record loop factors over the already-written output. -/
theorem print_records_factor (env : Env) (ex : Extractor) (sf : Bool)
    (vol : String) (ts : List String) (output : ListCmdOutput) :
    print_records env ex sf vol output ts
      = (⟨output.out ++ (print_records env ex sf vol ⟨[], []⟩ ts).1.out,
          output.err ++ (print_records env ex sf vol ⟨[], []⟩ ts).1.err⟩,
         (print_records env ex sf vol ⟨[], []⟩ ts).2) := by
  induction ts generalizing output with
  | nil => simp [print_records]
  | cons t rest ih =>
    simp only [print_records]
    rw [print_trashinfo_factor env output vol t ex sf]
    cases hP : print_trashinfo env ⟨[], []⟩ vol t ex sf with
    | mk P r =>
      cases r with
      | some e => simp
      | none =>
        dsimp only
        rw [ih ⟨output.out ++ P.out, output.err ++ P.err⟩, ih P]
        simp [List.append_assoc]

/-- Helper: the event loop factors over the already-written output. -/
theorem process_events_factor (env : Env) (ex : Extractor) (sf : Bool)
    (events : List ScanEvent) (output : ListCmdOutput) :
    process_events env ex sf output events
      = (⟨output.out ++ (process_events env ex sf ⟨[], []⟩ events).1.out,
          output.err ++ (process_events env ex sf ⟨[], []⟩ events).1.err⟩,
         (process_events env ex sf ⟨[], []⟩ events).2) := by
  induction events generalizing output with
  | nil => simp [process_events]
  | cons ev rest ih =>
    cases ev with
    | trash_dir_found path volume =>
      simp only [process_events]
      rw [print_records_factor env ex sf volume (env.list_trashinfo path) output]
      cases hP : print_records env ex sf volume ⟨[], []⟩ (env.list_trashinfo path) with
      | mk P r =>
        cases r with
        | some e => simp
        | none =>
          dsimp only
          rw [ih ⟨output.out ++ P.out, output.err ++ P.err⟩, ih P]
          simp [List.append_assoc]
    | trash_dir_skipped_because_parent_not_sticky path =>
      simp only [process_events,
        ListCmdOutput.top_trashdir_skipped_because_parent_not_sticky,
        ListCmdOutput.error]
      rw [ih { output with
                err := output.err
                  ++ ["TrashDir skipped because parent not sticky: " ++ path] },
          ih ⟨[], [] ++ ["TrashDir skipped because parent not sticky: " ++ path]⟩]
      simp [List.append_assoc]
    | trash_dir_skipped_because_parent_is_symlink path =>
      simp only [process_events,
        ListCmdOutput.top_trashdir_skipped_because_parent_is_symlink,
        ListCmdOutput.error]
      rw [ih { output with
                err := output.err
                  ++ ["TrashDir skipped because parent is symlink: " ++ path] },
          ih ⟨[], [] ++ ["TrashDir skipped because parent is symlink: " ++ path]⟩]
      simp [List.append_assoc]

/-!
## Record-failure confinement (C4) and line format (C7)
-/

/-- C4 (confirmed): a record-fatal failure is confined to that record.  An
I/O error while reading the trashinfo file appends the read-error diagnostic
(`str(e)`) to the err stream, produces no listing line, and the computation
continues with exactly the remaining sibling records; an unparsable path
field appends the parse-error diagnostic referencing the trashinfo path to
the err stream, produces no listing line, and the computation continues with
exactly the remaining sibling records. -/
theorem C4_record_failures_confined (env : Env) (ex : Extractor) (sf : Bool)
    (vol : String) (output : ListCmdOutput) (t : String) (ts : List String) :
    (∀ e, env.contents_of t = .error e →
      print_records env ex sf vol output (t :: ts)
        = print_records env ex sf vol ⟨output.out, output.err ++ [e]⟩ ts) ∧
    (∀ c, env.contents_of t = .ok c → env.parse_path c = .error () →
      print_records env ex sf vol output (t :: ts)
        = print_records env ex sf vol
            ⟨output.out,
             output.err ++ ["Parse Error: " ++ t ++ ": Unable to parse Path."]⟩
            ts) := by
  constructor
  · intro e he
    simp [print_records, print_trashinfo, he,
      ListCmdOutput.print_read_error, ListCmdOutput.error]
  · intro c hc hp
    simp [print_records, print_trashinfo, hc, hp,
      ListCmdOutput.print_parse_path_error, ListCmdOutput.error]

/-- Witness for `C4_record_failures_confined`: in `wEnv`, an unreadable
record and a record without a path field are each skipped with their
diagnostic, and the sibling record is still processed. -/
theorem C4_record_failures_confined_witness :
    (print_records wEnv .DeletionDateExtractor false "/vol" ⟨[], []⟩
        ["missing", "infoRel"]
      = print_records wEnv .DeletionDateExtractor false "/vol"
          ⟨[], ["unreadable"]⟩ ["infoRel"]) ∧
    (print_records wEnv .DeletionDateExtractor false "/vol" ⟨[], []⟩
        ["infoNoPath", "infoRel"]
      = print_records wEnv .DeletionDateExtractor false "/vol"
          ⟨[], ["Parse Error: " ++ "infoNoPath" ++ ": Unable to parse Path."]⟩
          ["infoRel"]) :=
  ⟨(C4_record_failures_confined wEnv .DeletionDateExtractor false "/vol"
      ⟨[], []⟩ "missing" ["infoRel"]).1 "unreadable" (by rfl),
   (C4_record_failures_confined wEnv .DeletionDateExtractor false "/vol"
      ⟨[], []⟩ "infoNoPath" ["infoRel"]).2
      "DeletionDate=2021-01-01T10:00:00" (by rfl) (by rfl)⟩

/-- C7 (confirmed): a successfully read, parsed and extracted record
produces exactly one output line, appended to the out stream and formatted
as the attribute, a single space and the original location; in show-files
mode the line instead also carries a `" -> "` separator and the backup file
path derived from the trashinfo path.  The err stream is untouched. -/
theorem C7_line_format (env : Env) (output : ListCmdOutput)
    (vol t c p a : String) (ex : Extractor) (sf : Bool)
    (hread : env.contents_of t = .ok c)
    (hparse : env.parse_path c = .ok p)
    (hattr : extract_attribute env ex t c = .ok a) :
    print_trashinfo env output vol t ex sf
      = (⟨output.out ++
            [if sf then
              a ++ " " ++ posixJoin vol p ++ " -> " ++ env.path_of_backup_copy t
            else a ++ " " ++ posixJoin vol p],
          output.err⟩, none) := by
  simp [print_trashinfo, hread, hparse, hattr, format_line, format_line2,
    ListCmdOutput.println]

/-- Witness for `C7_line_format` in show-files mode at a concrete record. -/
theorem C7_line_format_witness :
    print_trashinfo wEnv ⟨[], []⟩ "/vol" "infoRel" .DeletionDateExtractor true
      = (⟨[] ++
            [if true then
              "2021-01-01T10:00:00" ++ " " ++ posixJoin "/vol" "docs/file.txt"
                ++ " -> " ++ wEnv.path_of_backup_copy "infoRel"
            else "2021-01-01T10:00:00" ++ " " ++ posixJoin "/vol" "docs/file.txt"],
          []⟩, none) :=
  C7_line_format wEnv ⟨[], []⟩ "/vol" "infoRel" "Path=docs/file.txt"
    "docs/file.txt" "2021-01-01T10:00:00" .DeletionDateExtractor true
    (by rfl) (by rfl) (by rfl)

/-!
## Security-skip events (C6) and size-mode failure (C2)
-/

/-- C6 (confirmed): a `SkippedNotSticky` or `SkippedSymlink` event consumed
by the event loop produces exactly its diagnostic line on the err stream,
and the remaining events are processed as before; no record is ever listed
from the skipped path — the reader oracle is not consulted: processing the
skip event is unchanged under arbitrary replacement of `list_trashinfo`. -/
theorem C6_skip_events (env : Env) (f : String → List String) (ex : Extractor)
    (sf : Bool) (output : ListCmdOutput) (p : String) (es : List ScanEvent) :
    (process_events env ex sf output
        (.trash_dir_skipped_because_parent_not_sticky p :: es)
      = process_events env ex sf
          ⟨output.out,
           output.err ++ ["TrashDir skipped because parent not sticky: " ++ p]⟩
          es) ∧
    (process_events env ex sf output
        (.trash_dir_skipped_because_parent_is_symlink p :: es)
      = process_events env ex sf
          ⟨output.out,
           output.err ++ ["TrashDir skipped because parent is symlink: " ++ p]⟩
          es) ∧
    process_events { env with list_trashinfo := f } ex sf output
        [.trash_dir_skipped_because_parent_not_sticky p]
      = process_events env ex sf output
          [.trash_dir_skipped_because_parent_not_sticky p] ∧
    process_events { env with list_trashinfo := f } ex sf output
        [.trash_dir_skipped_because_parent_is_symlink p]
      = process_events env ex sf output
          [.trash_dir_skipped_because_parent_is_symlink p] :=
  ⟨rfl, rfl, rfl, rfl⟩

/-- Environment for the size-mode failure: every record content is readable
and parsable, but the backup copy is missing, so every size lookup fails. -/
def sizeCrashEnv : Env where
  contents_of := fun _ => .ok "Path=doc.txt"
  parse_path := fun _ => .ok "doc.txt"
  file_size := fun _ => .error "No such file or directory: files/doc"
  path_of_backup_copy := fun p => p ++ ".files"
  maybe_parse_deletion_date := fun _ => ""
  list_trashinfo := fun _ => ["info/a.trashinfo", "info/b.trashinfo"]

/-- C2 (code_bug): contrary to the claim (and to §4.7/§7 of the spec), a
missing or unsizeable backup file in size mode is NOT turned into a reported
diagnostic line: `SizeExtractor.extract_attribute` calls `file_size` with no
handler, and neither `_print_trashinfo` nor `list_trash` catches the
resulting error, so it aborts the run.  Concretely: two listed records whose
size lookups fail — the run stops at the first with the uncaught error, no
diagnostic reaches either stream, and the second record is never
processed. -/
theorem C2_size_failure_aborts :
    process_events sizeCrashEnv .SizeExtractor false ⟨[], []⟩
        [.trash_dir_found "/vol/.Trash-1000" "/vol"]
      = (⟨[], []⟩, some "No such file or directory: files/doc") := by
  rfl

/-!
## Volume resolution (C5)
-/

/-- Helper: with the deletion-date extractor, `_print_trashinfo` never lets
an exception escape. -/
theorem print_trashinfo_dd_no_abort (env : Env) (output : ListCmdOutput)
    (vol t : String) (sf : Bool) :
    (print_trashinfo env output vol t .DeletionDateExtractor sf).2 = none := by
  unfold print_trashinfo
  cases hc : env.contents_of t with
  | error e => simp [hc]
  | ok c =>
    cases hp : env.parse_path c with
    | error u => simp [hc, hp]
    | ok p => simp [hc, hp, extract_attribute]

/-- Helper: with the deletion-date extractor, the record loop never
aborts. -/
theorem print_records_dd_no_abort (env : Env) (sf : Bool) (vol : String)
    (ts : List String) (output : ListCmdOutput) :
    (print_records env .DeletionDateExtractor sf vol output ts).2 = none := by
  induction ts generalizing output with
  | nil => rfl
  | cons t rest ih =>
    simp only [print_records]
    cases hP : print_trashinfo env output vol t .DeletionDateExtractor sf with
    | mk o r =>
      have hr : r = none := by
        have h := print_trashinfo_dd_no_abort env output vol t sf
        rw [hP] at h
        exact h
      subst hr
      dsimp only
      exact ih o

/-- Helper: a successfully read and parsed record listed among `ts` gets its
formatted line into the out stream of the record loop (deletion-date
mode). -/
theorem mem_print_records_out (env : Env) (sf : Bool) (vol : String)
    (ts : List String) (output : ListCmdOutput) (t c p : String)
    (hmem : t ∈ ts)
    (hread : env.contents_of t = .ok c)
    (hparse : env.parse_path c = .ok p) :
    (if sf then
       format_line2 (env.maybe_parse_deletion_date c) (posixJoin vol p)
         (env.path_of_backup_copy t)
     else format_line (env.maybe_parse_deletion_date c) (posixJoin vol p))
      ∈ (print_records env .DeletionDateExtractor sf vol output ts).1.out := by
  induction ts generalizing output with
  | nil => cases hmem
  | cons a rest ih =>
    simp only [print_records]
    rcases List.mem_cons.mp hmem with h | h
    · subst h
      rw [print_trashinfo_success env output vol t c p
            (env.maybe_parse_deletion_date c) .DeletionDateExtractor sf
            hread hparse rfl]
      dsimp only
      rw [print_records_factor]
      dsimp only
      refine List.mem_append_left _ ?_
      simp [ListCmdOutput.println]
    · cases hP : print_trashinfo env output vol a .DeletionDateExtractor sf with
      | mk o r =>
        have hr : r = none := by
          have hn := print_trashinfo_dd_no_abort env output vol a sf
          rw [hP] at hn
          exact hn
        subst hr
        dsimp only
        exact ih o h

/-- C5 (confirmed): a record successfully read and parsed is printed with
its original location computed as `os.path.join` of the volume carried by
the `trash_dir_found` event of the trash directory it was listed from and
the parsed (possibly relative) path.  The event's volume is a free variable
of the statement and no other volume occurs in the computation — in
particular the working volume of the process does not enter the embedding at
all.  Stated in deletion-date mode, whose extractor never aborts. -/
theorem C5_resolved_against_event_volume (env : Env) (sf : Bool)
    (output : ListCmdOutput) (path volume t c p : String) (es : List ScanEvent)
    (hmem : t ∈ env.list_trashinfo path)
    (hread : env.contents_of t = .ok c)
    (hparse : env.parse_path c = .ok p) :
    (if sf then
       format_line2 (env.maybe_parse_deletion_date c) (posixJoin volume p)
         (env.path_of_backup_copy t)
     else format_line (env.maybe_parse_deletion_date c) (posixJoin volume p))
      ∈ (process_events env .DeletionDateExtractor sf output
          (.trash_dir_found path volume :: es)).1.out := by
  simp only [process_events]
  cases hP : print_records env .DeletionDateExtractor sf volume output
      (env.list_trashinfo path) with
  | mk o r =>
    have hr : r = none := by
      have hn := print_records_dd_no_abort env sf volume
        (env.list_trashinfo path) output
      rw [hP] at hn
      exact hn
    subst hr
    dsimp only
    rw [process_events_factor]
    dsimp only
    refine List.mem_append_left _ ?_
    have hm := mem_print_records_out env sf volume (env.list_trashinfo path)
      output t c p hmem hread hparse
    rw [hP] at hm
    exact hm

/-- Witness for `C5_resolved_against_event_volume`: the relative path of
`infoRel` is resolved against the volume `/vol` carried by the found
event. -/
theorem C5_resolved_witness :
    (if false then
       format_line2 (wEnv.maybe_parse_deletion_date "Path=docs/file.txt")
         (posixJoin "/vol" "docs/file.txt") (wEnv.path_of_backup_copy "infoRel")
     else format_line (wEnv.maybe_parse_deletion_date "Path=docs/file.txt")
         (posixJoin "/vol" "docs/file.txt"))
      ∈ (process_events wEnv .DeletionDateExtractor false ⟨[], []⟩
          [.trash_dir_found "/vol/.Trash-1000" "/vol"]).1.out :=
  C5_resolved_against_event_volume wEnv false ⟨[], []⟩ "/vol/.Trash-1000"
    "/vol" "infoRel" "Path=docs/file.txt" "docs/file.txt" []
    (by decide) (by rfl) (by rfl)

/-!
## Stream disjointness (C9)
-/

/-- An entry listing line: what `println` receives for some successfully
read, parsed and extracted record, formatted by `format_line` /
`format_line2`. -/
def entryLine (env : Env) (ex : Extractor) (sf : Bool) (l : String) : Prop :=
  ∃ volume t c p a, env.contents_of t = .ok c ∧ env.parse_path c = .ok p ∧
    extract_attribute env ex t c = .ok a ∧
    l = if sf then
          format_line2 a (posixJoin volume p) (env.path_of_backup_copy t)
        else format_line a (posixJoin volume p)

/-- A diagnostic line: one of the four error-channel messages of
`ListCmdOutput`, each with its trigger where the trigger is a property of
the environment. -/
def diagnosticLine (env : Env) (l : String) : Prop :=
  (∃ t e, env.contents_of t = .error e ∧ l = e) ∨
  (∃ t c, env.contents_of t = .ok c ∧ env.parse_path c = .error () ∧
    l = "Parse Error: " ++ t ++ ": Unable to parse Path.") ∨
  (∃ p, l = "TrashDir skipped because parent not sticky: " ++ p) ∨
  (∃ p, l = "TrashDir skipped because parent is symlink: " ++ p)

/-- Helper: one `_print_trashinfo` call only adds entry lines to out and
diagnostics to err. -/
theorem print_trashinfo_shape (env : Env) (output : ListCmdOutput)
    (vol t : String) (ex : Extractor) (sf : Bool) :
    (∀ l ∈ (print_trashinfo env output vol t ex sf).1.out,
      l ∈ output.out ∨ entryLine env ex sf l) ∧
    (∀ l ∈ (print_trashinfo env output vol t ex sf).1.err,
      l ∈ output.err ∨ diagnosticLine env l) := by
  cases hc : env.contents_of t with
  | error e =>
    have heq : print_trashinfo env output vol t ex sf
        = (output.error e, none) := by
      simp [print_trashinfo, hc, ListCmdOutput.print_read_error]
    rw [heq]
    constructor <;> intro l hl
    · exact Or.inl (by simpa [ListCmdOutput.error] using hl)
    · rcases (by simpa [ListCmdOutput.error] using hl :
          l ∈ output.err ∨ l = e) with h | h
      · exact Or.inl h
      · exact Or.inr (Or.inl ⟨t, e, hc, h⟩)
  | ok c =>
    cases hp : env.parse_path c with
    | error u =>
      cases u
      have heq : print_trashinfo env output vol t ex sf
          = (output.error ("Parse Error: " ++ t ++ ": Unable to parse Path."),
             none) := by
        simp [print_trashinfo, hc, hp, ListCmdOutput.print_parse_path_error]
      rw [heq]
      constructor <;> intro l hl
      · exact Or.inl (by simpa [ListCmdOutput.error] using hl)
      · rcases (by simpa [ListCmdOutput.error] using hl :
            l ∈ output.err ∨
              l = "Parse Error: " ++ t ++ ": Unable to parse Path.") with h | h
        · exact Or.inl h
        · exact Or.inr (Or.inr (Or.inl ⟨t, c, hc, hp, h⟩))
    | ok p =>
      cases ha : extract_attribute env ex t c with
      | error e =>
        have heq : print_trashinfo env output vol t ex sf = (output, some e) := by
          simp [print_trashinfo, hc, hp, ha]
        rw [heq]
        exact ⟨fun l hl => Or.inl hl, fun l hl => Or.inl hl⟩
      | ok a =>
        have heq := print_trashinfo_success env output vol t c p a ex sf hc hp ha
        rw [heq]
        constructor <;> intro l hl
        · rcases (by simpa [ListCmdOutput.println] using hl :
              l ∈ output.out ∨
                l = if sf then
                      format_line2 a (posixJoin vol p) (env.path_of_backup_copy t)
                    else format_line a (posixJoin vol p)) with h | h
          · exact Or.inl h
          · exact Or.inr ⟨vol, t, c, p, a, hc, hp, ha, h⟩
        · exact Or.inl (by simpa [ListCmdOutput.println] using hl)

/-- Helper: the record loop only adds entry lines to out and diagnostics to
err. -/
theorem print_records_shape (env : Env) (ex : Extractor) (sf : Bool)
    (vol : String) (ts : List String) (output : ListCmdOutput) :
    (∀ l ∈ (print_records env ex sf vol output ts).1.out,
      l ∈ output.out ∨ entryLine env ex sf l) ∧
    (∀ l ∈ (print_records env ex sf vol output ts).1.err,
      l ∈ output.err ∨ diagnosticLine env l) := by
  induction ts generalizing output with
  | nil => exact ⟨fun l hl => Or.inl hl, fun l hl => Or.inl hl⟩
  | cons a rest ih =>
    simp only [print_records]
    cases hP : print_trashinfo env output vol a ex sf with
    | mk o r =>
      have hshape := print_trashinfo_shape env output vol a ex sf
      rw [hP] at hshape
      cases r with
      | some e =>
        dsimp only
        exact hshape
      | none =>
        dsimp only
        refine ⟨fun l hl => ?_, fun l hl => ?_⟩
        · rcases (ih o).1 l hl with h | h
          · exact hshape.1 l h
          · exact Or.inr h
        · rcases (ih o).2 l hl with h | h
          · exact hshape.2 l h
          · exact Or.inr h

/-- Helper: the event loop only adds entry lines to out and diagnostics to
err. -/
theorem process_events_shape (env : Env) (ex : Extractor) (sf : Bool)
    (events : List ScanEvent) (output : ListCmdOutput) :
    (∀ l ∈ (process_events env ex sf output events).1.out,
      l ∈ output.out ∨ entryLine env ex sf l) ∧
    (∀ l ∈ (process_events env ex sf output events).1.err,
      l ∈ output.err ∨ diagnosticLine env l) := by
  induction events generalizing output with
  | nil => exact ⟨fun l hl => Or.inl hl, fun l hl => Or.inl hl⟩
  | cons ev rest ih =>
    cases ev with
    | trash_dir_found path volume =>
      simp only [process_events]
      cases hP : print_records env ex sf volume output (env.list_trashinfo path) with
      | mk o r =>
        have hshape := print_records_shape env ex sf volume
          (env.list_trashinfo path) output
        rw [hP] at hshape
        cases r with
        | some e =>
          dsimp only
          exact hshape
        | none =>
          dsimp only
          refine ⟨fun l hl => ?_, fun l hl => ?_⟩
          · rcases (ih o).1 l hl with h | h
            · exact hshape.1 l h
            · exact Or.inr h
          · rcases (ih o).2 l hl with h | h
            · exact hshape.2 l h
            · exact Or.inr h
    | trash_dir_skipped_because_parent_not_sticky path =>
      simp only [process_events]
      refine ⟨fun l hl => ?_, fun l hl => ?_⟩
      · rcases (ih _).1 l hl with h | h
        · exact Or.inl (by
            simpa [ListCmdOutput.top_trashdir_skipped_because_parent_not_sticky,
              ListCmdOutput.error] using h)
        · exact Or.inr h
      · rcases (ih _).2 l hl with h | h
        · simp only [ListCmdOutput.top_trashdir_skipped_because_parent_not_sticky,
            ListCmdOutput.error, List.mem_append, List.mem_singleton] at h
          rcases h with h2 | h2
          · exact Or.inl h2
          · exact Or.inr (Or.inr (Or.inr (Or.inl ⟨path, h2⟩)))
        · exact Or.inr h
    | trash_dir_skipped_because_parent_is_symlink path =>
      simp only [process_events]
      refine ⟨fun l hl => ?_, fun l hl => ?_⟩
      · rcases (ih _).1 l hl with h | h
        · exact Or.inl (by
            simpa [ListCmdOutput.top_trashdir_skipped_because_parent_is_symlink,
              ListCmdOutput.error] using h)
        · exact Or.inr h
      · rcases (ih _).2 l hl with h | h
        · simp only [ListCmdOutput.top_trashdir_skipped_because_parent_is_symlink,
            ListCmdOutput.error, List.mem_append, List.mem_singleton] at h
          rcases h with h2 | h2
          · exact Or.inl h2
          · exact Or.inr (Or.inr (Or.inr (Or.inr ⟨path, h2⟩)))
        · exact Or.inr h

/-- C9 (confirmed): the two streams are disjoint by construction: starting
from empty streams, every line the run writes to the out stream is an entry
listing line passed to `println` for a successfully read, parsed and
extracted record, and every line it writes to the err stream is one of the
four diagnostics (read error, parse-path error, not-sticky skip, symlink
skip) passed to `error`; no diagnostic is ever written to out and no entry
line to err. -/
theorem C9_streams_disjoint (env : Env) (ex : Extractor) (sf : Bool)
    (events : List ScanEvent) :
    (∀ l ∈ (process_events env ex sf ⟨[], []⟩ events).1.out,
      entryLine env ex sf l) ∧
    (∀ l ∈ (process_events env ex sf ⟨[], []⟩ events).1.err,
      diagnosticLine env l) := by
  have h := process_events_shape env ex sf events ⟨[], []⟩
  refine ⟨fun l hl => ?_, fun l hl => ?_⟩
  · rcases h.1 l hl with h2 | h2
    · exact absurd h2 (List.not_mem_nil l)
    · exact h2
  · rcases h.2 l hl with h2 | h2
    · exact absurd h2 (List.not_mem_nil l)
    · exact h2

/-- Witness for `C9_streams_disjoint`: in a run over `wEnv` with one found
directory and one skip event, the listing line on out is an entry line and
the skip line on err is a diagnostic. -/
theorem C9_streams_disjoint_witness :
    entryLine wEnv .DeletionDateExtractor false
      (format_line "2021-01-01T10:00:00" "/home/user/file.txt") ∧
    diagnosticLine wEnv
      ("TrashDir skipped because parent not sticky: " ++ "/x") :=
  ⟨(C9_streams_disjoint wEnv .DeletionDateExtractor false
      [.trash_dir_found "/d" "/vol",
       .trash_dir_skipped_because_parent_not_sticky "/x"]).1 _ (by decide),
   (C9_streams_disjoint wEnv .DeletionDateExtractor false
      [.trash_dir_found "/d" "/vol",
       .trash_dir_skipped_because_parent_not_sticky "/x"]).2 _ (by decide)⟩

end TrashList
